import Mathlib
set_option maxRecDepth 16384

/-!
Verification of the dialect translation and validation engine of the
snowflake-localhost repository.

The engine has two independent parts:

* `app/snowflake_proxy/sql_translator.py` — `SnowflakeToPostgreSQLTranslator`,
  a rule-based rewrite pipeline over plain query strings
  (upper-casing, data-type substitution, function substitution,
  clause removal, `TOP`→`LIMIT`, `MERGE`→`INSERT`, qualified-name
  flattening, and a no-op case-restoration pass);
* `app/snowflake_proxy/sql_parser.py` — `SnowflakeParser`, a Lark grammar
  for `CREATE TABLE` plus the `validate_sql` entry point.

Queries are modelled as `List Char`.  The Python string primitives used by
the source (`str.upper`, `str.strip`, `str.replace`, `in`, and the handful
of concrete `re.sub` patterns) are embedded directly; the embedding is
faithful on ASCII input, which is the alphabet of every statement the
repository handles and of every claim below.
-/

namespace SnowflakeProxy

/-- Query strings are lists of characters. -/
abbrev Str := List Char

/-- Python `str.upper()` on ASCII text: `Char.toUpper` maps `a`–`z` to
`A`–`Z` and fixes everything else, exactly as CPython does on ASCII. -/
def pyUpper (s : Str) : Str := s.map Char.toUpper

/-- The ASCII whitespace characters recognised by Python `str.strip()` and
by the regex class `\s`. -/
def pyIsSpace (c : Char) : Bool :=
  c == ' ' || c == '\t' || c == '\n' || c == '\r' || c == '\x0b' || c == '\x0c'

/-- Python `str.strip()`: drop whitespace from both ends. -/
def pyStrip (s : Str) : Str :=
  ((s.dropWhile pyIsSpace).reverse.dropWhile pyIsSpace).reverse

/-- Python substring test `pat in s`. -/
def containsSub (s pat : Str) : Bool :=
  match s with
  | [] => pat.isEmpty
  | c :: rest => pat.isPrefixOf (c :: rest) || containsSub rest pat

/-- Python `s.replace(old, new)` for a non-empty `old`: replace every
non-overlapping occurrence, scanning left to right.  The fuel argument
only bounds the recursion (each step consumes at least one character, so
`length + 1` never runs out); it keeps the definition structural so that
concrete instances reduce inside the kernel. -/
def pyReplaceAux (old new : Str) : Nat → Str → Str
  | _, [] => []
  | 0, s => s
  | fuel+1, c :: rest =>
    if old.isPrefixOf (c :: rest) && !old.isEmpty then
      new ++ pyReplaceAux old new fuel (rest.drop (old.length - 1))
    else
      c :: pyReplaceAux old new fuel rest

/-- Python `s.replace(old, new)`. -/
def pyReplace (old new s : Str) : Str := pyReplaceAux old new (s.length + 1) s

/-- The regex word-character class `\w` on ASCII: letters, digits, `_`. -/
def isWordChar (c : Char) : Bool := c.isAlphanum || c == '_'

/-- Does the text start with the pattern word `key`, compared
case-insensitively (`re.IGNORECASE`)?  `key` is stored upper-case. -/
def matchKeyCI : Str → Str → Bool
  | [], _ => true
  | _ :: _, [] => false
  | k :: ks, c :: cs => (c.toUpper == k) && matchKeyCI ks cs

/-- Is the first character of the text a word character?  (Used for the
trailing `\b` of a pattern: at end of text it reports `false`.) -/
def headIsWord : Str → Bool
  | [] => false
  | c :: _ => isWordChar c

/-- `re.sub(rf"\b{key}\b", repl, s, flags=re.IGNORECASE)` for a key made of
word characters, as used by `_translate_data_types`.  The scan walks the
original string left to right; `prevWord` records whether the character
before the current position is a word character (initially `false`), which
decides the leading `\b`; the trailing `\b` is the `headIsWord` test.
Matches are non-overlapping and scanning resumes after the matched text,
whose last character is a word character, hence `true` is passed on. -/
def subWordCIAux (key repl : Str) : Nat → Bool → Str → Str
  | _, _, [] => []
  | 0, _, s => s
  | fuel+1, prevWord, c :: rest =>
    if 0 < key.length ∧ prevWord = false
        ∧ matchKeyCI key (c :: rest) = true
        ∧ headIsWord ((c :: rest).drop key.length) = false then
      repl ++ subWordCIAux key repl fuel true ((c :: rest).drop key.length)
    else
      c :: subWordCIAux key repl fuel (isWordChar c) rest

/-- `re.sub(rf"\b{key}\b", repl, s, flags=re.IGNORECASE)` (see
`subWordCIAux`; the fuel `length + 1` never runs out because every step
consumes at least one character). -/
def subWordCI (key repl : Str) (s : Str) : Str :=
  subWordCIAux key repl (s.length + 1) false s

/-- `self.data_type_mappings` from `SnowflakeToPostgreSQLTranslator.__init__`,
in Python dict insertion order. -/
def dataTypeMappings : List (Str × Str) := [
  ("NUMBER".toList, "NUMERIC".toList),
  ("DECIMAL".toList, "NUMERIC".toList),
  ("INT".toList, "INTEGER".toList),
  ("INTEGER".toList, "INTEGER".toList),
  ("BIGINT".toList, "BIGINT".toList),
  ("SMALLINT".toList, "SMALLINT".toList),
  ("FLOAT".toList, "REAL".toList),
  ("FLOAT4".toList, "REAL".toList),
  ("FLOAT8".toList, "DOUBLE PRECISION".toList),
  ("DOUBLE".toList, "DOUBLE PRECISION".toList),
  ("REAL".toList, "REAL".toList),
  ("VARCHAR".toList, "VARCHAR".toList),
  ("STRING".toList, "TEXT".toList),
  ("TEXT".toList, "TEXT".toList),
  ("CHAR".toList, "CHAR".toList),
  ("CHARACTER".toList, "CHAR".toList),
  ("BOOLEAN".toList, "BOOLEAN".toList),
  ("BOOL".toList, "BOOLEAN".toList),
  ("DATE".toList, "DATE".toList),
  ("TIME".toList, "TIME".toList),
  ("TIMESTAMP".toList, "TIMESTAMP".toList),
  ("TIMESTAMP_NTZ".toList, "TIMESTAMP".toList),
  ("TIMESTAMP_LTZ".toList, "TIMESTAMP WITH TIME ZONE".toList),
  ("TIMESTAMP_TZ".toList, "TIMESTAMP WITH TIME ZONE".toList),
  ("BINARY".toList, "BYTEA".toList),
  ("VARBINARY".toList, "BYTEA".toList),
  ("VARIANT".toList, "JSONB".toList),
  ("OBJECT".toList, "JSONB".toList),
  ("ARRAY".toList, "JSONB".toList)]

/-- `_translate_data_types`: for each lexicon entry in order, substitute
whole-word occurrences of the key, case-insensitively. -/
def translateDataTypes (query : Str) : Str :=
  dataTypeMappings.foldl (fun q kv => subWordCI kv.1 kv.2 q) query

/-- An ASCII single quote, written via its code point to keep the sources
free of quote characters. -/
def squote : Char := Char.ofNat 39

/-- The placeholder target `nextval('sequence_name')` of the two
`NEXTVAL` entries. -/
def nextvalTarget : Str :=
  "nextval(".toList ++ squote :: "sequence_name".toList ++ squote :: ")".toList

/-- `self.function_mappings` from `SnowflakeToPostgreSQLTranslator.__init__`,
in Python dict insertion order. -/
def functionMappings : List (Str × Str) := [
  ("CURRENT_TIMESTAMP()".toList, "CURRENT_TIMESTAMP".toList),
  ("CURRENT_DATE()".toList, "CURRENT_DATE".toList),
  ("CURRENT_TIME()".toList, "CURRENT_TIME".toList),
  ("SYSDATE()".toList, "CURRENT_DATE".toList),
  ("SYSTIMESTAMP()".toList, "CURRENT_TIMESTAMP".toList),
  ("UUID_STRING()".toList, "gen_random_uuid()".toList),
  ("RANDOM()".toList, "random()".toList),
  ("SEQUENCE.NEXTVAL".toList, nextvalTarget),
  ("SEQ.NEXTVAL".toList, nextvalTarget)]

/-- `_translate_functions`: plain (case-sensitive) `str.replace` of each
function key, in order. -/
def translateFunctions (query : Str) : Str :=
  functionMappings.foldl (fun q kv => pyReplace kv.1 kv.2 q) query

/-- `re.sub(rf"\b{kw}\s+\w+", "", q, flags=re.IGNORECASE)`, as used for
the `WAREHOUSE` and `ACCOUNT` clause removals: the keyword at a word
boundary, then one or more whitespace characters, then one or more word
characters, all deleted. -/
def subClauseAux (kw : Str) : Nat → Bool → Str → Str
  | _, _, [] => []
  | 0, _, s => s
  | fuel+1, prevWord, c :: rest =>
    if 0 < kw.length ∧ prevWord = false
        ∧ matchKeyCI kw (c :: rest) = true
        ∧ (((c :: rest).drop kw.length).takeWhile pyIsSpace) ≠ []
        ∧ ((((c :: rest).drop kw.length).dropWhile pyIsSpace).takeWhile isWordChar) ≠ [] then
      subClauseAux kw fuel true
        ((((c :: rest).drop kw.length).dropWhile pyIsSpace).dropWhile isWordChar)
    else
      c :: subClauseAux kw fuel (isWordChar c) rest

/-- `re.sub(rf"\b{kw}\s+\w+", "", q, flags=re.IGNORECASE)` (see
`subClauseAux`; the fuel `length + 1` never runs out because every step
consumes at least one character). -/
def subClause (kw : Str) (s : Str) : Str := subClauseAux kw (s.length + 1) false s

/-- `re.sub(r"\bTOP\s+(\d+)", r"LIMIT \1", q, flags=re.IGNORECASE)`:
`TOP` at a word boundary, whitespace, a run of digits; replaced by
`LIMIT ` followed by the captured digits. -/
def subTopAux : Nat → Bool → Str → Str
  | _, _, [] => []
  | 0, _, s => s
  | fuel+1, prevWord, c :: rest =>
    if prevWord = false
        ∧ matchKeyCI ("TOP".toList) (c :: rest) = true
        ∧ (((c :: rest).drop 3).takeWhile pyIsSpace) ≠ []
        ∧ ((((c :: rest).drop 3).dropWhile pyIsSpace).takeWhile Char.isDigit) ≠ [] then
      "LIMIT ".toList ++ ((((c :: rest).drop 3).dropWhile pyIsSpace).takeWhile Char.isDigit)
        ++ subTopAux fuel true ((((c :: rest).drop 3).dropWhile pyIsSpace).dropWhile Char.isDigit)
    else
      c :: subTopAux fuel (isWordChar c) rest

/-- `re.sub(r"\bTOP\s+(\d+)", r"LIMIT \1", q, flags=re.IGNORECASE)` (see
`subTopAux`; the fuel `length + 1` never runs out because every step
consumes at least one character). -/
def subTop (s : Str) : Str := subTopAux (s.length + 1) false s

/-- `_translate_merge_syntax`: if the text contains `MERGE`, log a warning
and replace every occurrence by `INSERT`.  The returned Boolean records
whether the warning branch ran. -/
def translateMergeSyntax (query : Str) : Str × Bool :=
  if containsSub query ("MERGE".toList) then
    (pyReplace ("MERGE".toList) ("INSERT".toList) query, true)
  else
    (query, false)

/-- `_translate_snowflake_specific_syntax`: drop `WAREHOUSE <word>` and
`ACCOUNT <word>` clauses, rewrite `TOP <n>` to `LIMIT <n>`, then apply the
`MERGE` rewrite. -/
def translateSnowflakeSpecificSyntax (query : Str) : Str × Bool :=
  translateMergeSyntax (subTop
    (subClause ("ACCOUNT".toList)
      (subClause ("WAREHOUSE".toList) query)))

/-- `re.sub(r"(\w+)\.(\w+)\.(\w+)", r"\2.\3", query)` from
`_translate_identifiers`: an exactly-greedy three-part dotted word
sequence is replaced by its last two parts.  There is no `\b` in the
pattern, and `\w+` is greedy, so each part is a maximal word run. -/
def subIdent3Aux : Nat → Str → Str
  | _, [] => []
  | 0, s => s
  | fuel+1, c :: rest =>
    if isWordChar c = true
        ∧ ((c :: rest).dropWhile isWordChar).head? = some '.'
        ∧ (((c :: rest).dropWhile isWordChar).tail.takeWhile isWordChar) ≠ []
        ∧ ((((c :: rest).dropWhile isWordChar).tail.dropWhile isWordChar).head? = some '.')
        ∧ (((((c :: rest).dropWhile isWordChar).tail.dropWhile isWordChar).tail.takeWhile isWordChar) ≠ []) then
      (((c :: rest).dropWhile isWordChar).tail.takeWhile isWordChar)
        ++ '.' :: (((((c :: rest).dropWhile isWordChar).tail.dropWhile isWordChar).tail.takeWhile isWordChar))
        ++ subIdent3Aux fuel (((((c :: rest).dropWhile isWordChar).tail.dropWhile isWordChar).tail.dropWhile isWordChar))
    else
      c :: subIdent3Aux fuel rest

/-- `re.sub(r"(\w+)\.(\w+)\.(\w+)", r"\2.\3", query)` (see
`subIdent3Aux`; the fuel `length + 1` never runs out because every step
consumes at least one character). -/
def subIdent3 (s : Str) : Str := subIdent3Aux (s.length + 1) s

/-- `_translate_identifiers`: qualified-name flattening. -/
def translateIdentifiers (query : Str) : Str := subIdent3 query

/-- `_restore_case`: documented as restoring the original casing but
implemented as a no-op returning the translated text unchanged. -/
def restoreCase (translatedQuery originalQuery : Str) : Str := translatedQuery

/-- `SnowflakeToPostgreSQLTranslator.translate`: upper-case the working
copy, then apply the passes in order.  The Boolean is `true` exactly when
the `MERGE` warning was logged during the call (the only diagnostic the
pipeline can emit). -/
def translate (query : Str) : Str × Bool :=
  let q0 := pyUpper query
  let q1 := translateDataTypes q0
  let q2 := translateFunctions q1
  let p3 := translateSnowflakeSpecificSyntax q2
  let q4 := translateIdentifiers p3.1
  (restoreCase q4 query, p3.2)

/-! ## The grammar validator (`sql_parser.py`)

`SNOWFLAKE_CREATE_TABLE_GRAMMAR` is a Lark grammar; `validate_sql` strips
the statement, requires the upper-cased text to start with `CREATE TABLE`
(otherwise it raises `NotImplementedError`), and then parses it with the
grammar (a parse failure propagates as an exception).

The grammar is embedded as an executable all-derivations parser over a
token list: each Lark production becomes one function returning the list
of every possible remainder after consuming that nonterminal.  Keyword
terminals (Lark's quoted strings) match a word token with exactly that
text, and `IDENTIFIER` matches any word token; this resolves the
keyword/identifier overlap nondeterministically, which yields a superset
of the language recognised by Lark's contextual LALR lexer, so a
rejection by this model is a rejection by the source.  The left-recursive
`arithmetic_expr`/`comparison_expr` alternatives of `expr` are folded into
the language-equivalent right-recursive form
`expr := base ((operator | comp_operator) expr)?` with
`base := function_call | literal | column_ref | "(" expr ")"`.
All rule functions carry a fuel argument that strictly dominates the
recursion depth of any derivation of the input (every cycle of the
grammar consumes at least one token, so depth is bounded by a small
multiple of the token count, far below the fuel supplied). -/

/-- The classified lexemes of the grammar's terminals. -/
inductive Tok where
  | word (w : Str)
  | num (w : Str)
  | str (w : Str)
  | sym (w : Str)
deriving DecidableEq

/-- First character of the grammar's `IDENTIFIER`: `[a-zA-Z_]`. -/
def isIdentStart (c : Char) : Bool := c.isAlpha || c == '_'

/-- Does the text start with a digit? -/
def headIsDigit : Str → Bool
  | [] => false
  | c :: _ => c.isDigit

/-- The single-character symbols appearing in the grammar's productions. -/
def singleSyms : List Char := ['(', ')', ',', '.', '=', '+', '-', '*', '/', '%', '<', '>']

/-- Whitespace-skipping scanner for the grammar's terminals: `IDENTIFIER`
words, `NUMBER` literals `-?[0-9]+(\.[0-9]+)?`, single-quoted `STRING`
literals without escapes, the two-character comparison symbols, and the
single-character symbols.  `none` on a character no terminal matches.
The fuel is spent one unit per token or skipped space, so
`length + 1` always suffices. -/
def tokenizeAux : Nat → Str → Option (List Tok)
  | _, [] => some []
  | 0, _ :: _ => none
  | fuel+1, c :: cs =>
    if pyIsSpace c then tokenizeAux fuel cs
    else if isIdentStart c then
      (tokenizeAux fuel ((c :: cs).dropWhile isWordChar)).map
        (fun ts => Tok.word ((c :: cs).takeWhile isWordChar) :: ts)
    else if c.isDigit || (c == '-' && headIsDigit cs) then
      let body := if c == '-' then cs else c :: cs
      let sign : Str := if c == '-' then ['-'] else []
      let intPart := body.takeWhile Char.isDigit
      match body.dropWhile Char.isDigit with
      | '.' :: d :: ds =>
        if d.isDigit then
          (tokenizeAux fuel ((d :: ds).dropWhile Char.isDigit)).map
            (fun ts => Tok.num (sign ++ intPart ++ '.' :: (d :: ds).takeWhile Char.isDigit) :: ts)
        else
          (tokenizeAux fuel ('.' :: d :: ds)).map (fun ts => Tok.num (sign ++ intPart) :: ts)
      | rest1 =>
        (tokenizeAux fuel rest1).map (fun ts => Tok.num (sign ++ intPart) :: ts)
    else if c == squote then
      match cs.dropWhile (fun d => d != squote) with
      | _ :: rest2 =>
        (tokenizeAux fuel rest2).map
          (fun ts => Tok.str (cs.takeWhile (fun d => d != squote)) :: ts)
      | [] => none
    else
      match c, cs with
      | '<', '=' :: cs2 => (tokenizeAux fuel cs2).map (fun ts => Tok.sym "<=".toList :: ts)
      | '>', '=' :: cs2 => (tokenizeAux fuel cs2).map (fun ts => Tok.sym ">=".toList :: ts)
      | '!', '=' :: cs2 => (tokenizeAux fuel cs2).map (fun ts => Tok.sym "!=".toList :: ts)
      | '<', '>' :: cs2 => (tokenizeAux fuel cs2).map (fun ts => Tok.sym "<>".toList :: ts)
      | c, cs =>
        if singleSyms.contains c then
          (tokenizeAux fuel cs).map (fun ts => Tok.sym [c] :: ts)
        else none

/-- Tokenize a statement. -/
def tokenize (s : Str) : Option (List Tok) := tokenizeAux (s.length + 1) s

/-- An all-derivations parser: from a token list, the list of every
remainder reachable by consuming one instance of the nonterminal. -/
abbrev P := List Tok → List (List Tok)

/-- Sequencing of productions. -/
def pseq (p q : P) : P := fun ts => (p ts).flatMap q

/-- Alternation of productions. -/
def palt (p q : P) : P := fun ts => p ts ++ q ts

/-- An optional item (`x?`). -/
def popt (p : P) : P := fun ts => ts :: p ts

/-- Zero or more repetitions (`x*`), with fuel bounding the count. -/
def pmany : Nat → P → P
  | 0, _ => fun ts => [ts]
  | fuel+1, p => fun ts => ts :: (p ts).flatMap (pmany fuel p)

/-- A quoted keyword terminal of the grammar. -/
def pkw (kw : String) : P := fun ts =>
  match ts with
  | Tok.word w :: rest => if w == kw.toList then [rest] else []
  | _ => []

/-- A quoted symbol terminal of the grammar. -/
def psym (s : String) : P := fun ts =>
  match ts with
  | Tok.sym w :: rest => if w == s.toList then [rest] else []
  | _ => []

/-- Terminal `IDENTIFIER: /[a-zA-Z_][a-zA-Z0-9_]*/` (any word token). -/
def pIDENTIFIER : P := fun ts =>
  match ts with
  | Tok.word _ :: rest => [rest]
  | _ => []

/-- Terminal `NUMBER`. -/
def pNUMBER : P := fun ts =>
  match ts with
  | Tok.num _ :: rest => [rest]
  | _ => []

/-- Terminal `STRING`. -/
def pSTRING : P := fun ts =>
  match ts with
  | Tok.str _ :: rest => [rest]
  | _ => []

/-- Terminal `BOOLEAN: "TRUE" | "FALSE"`. -/
def pBOOLEAN : P := fun ts =>
  match ts with
  | Tok.word w :: rest => if w == "TRUE".toList || w == "FALSE".toList then [rest] else []
  | _ => []

/-- `or_replace: "OR" "REPLACE"` -/
def pOrReplace : P := pseq (pkw "OR") (pkw "REPLACE")

/-- `table_type: ("LOCAL" | "GLOBAL")? ("TEMP" | "TEMPORARY" | "VOLATILE" | "TRANSIENT")` -/
def pTableType : P :=
  pseq (popt (palt (pkw "LOCAL") (pkw "GLOBAL")))
    (palt (pkw "TEMP") (palt (pkw "TEMPORARY") (palt (pkw "VOLATILE") (pkw "TRANSIENT"))))

/-- `if_not_exists: "IF" "NOT" "EXISTS"` -/
def pIfNotExists : P := pseq (pkw "IF") (pseq (pkw "NOT") (pkw "EXISTS"))

/-- `table_name: IDENTIFIER ("." IDENTIFIER)*` -/
def pTableName (fuel : Nat) : P :=
  pseq pIDENTIFIER (pmany fuel (pseq (psym ".") pIDENTIFIER))

/-- `query: /SELECT .*/` — in Lark an anonymous regex terminal running to
the end of the line; over-approximated here as the word `SELECT` followed
by any number of further tokens, which only enlarges the accepted set. -/
def pQuery : P := fun ts =>
  match ts with
  | Tok.word w :: rest => if w == "SELECT".toList then rest.tails else []
  | _ => []

/-- `data_type: IDENTIFIER ("(" (NUMBER | "MAX") ("," NUMBER)* ")")?` -/
def pDataType (fuel : Nat) : P :=
  pseq pIDENTIFIER (popt (pseq (psym "(") (pseq (palt pNUMBER (pkw "MAX"))
    (pseq (pmany fuel (pseq (psym ",") pNUMBER)) (psym ")")))))

/-- `not_null: "NOT" "NULL"` -/
def pNotNull : P := pseq (pkw "NOT") (pkw "NULL")

/-- `collate: "COLLATE" STRING` -/
def pCollate : P := pseq (pkw "COLLATE") pSTRING

/-- `autoincrement: ("AUTOINCREMENT" | "IDENTITY") ("(" NUMBER "," NUMBER ")" | "START" NUMBER "INCREMENT" NUMBER)? ("ORDER" | "NOORDER")?` -/
def pAutoincrement : P :=
  pseq (palt (pkw "AUTOINCREMENT") (pkw "IDENTITY"))
    (pseq (popt (palt
        (pseq (psym "(") (pseq pNUMBER (pseq (psym ",") (pseq pNUMBER (psym ")")))))
        (pseq (pkw "START") (pseq pNUMBER (pseq (pkw "INCREMENT") pNUMBER)))))
      (popt (palt (pkw "ORDER") (pkw "NOORDER"))))

/-- `projection_policy: "WITH"? "PROJECTION" "POLICY" IDENTIFIER` -/
def pProjectionPolicy : P :=
  pseq (popt (pkw "WITH")) (pseq (pkw "PROJECTION") (pseq (pkw "POLICY") pIDENTIFIER))

/-- `tag_item: IDENTIFIER "=" STRING` -/
def pTagItem : P := pseq pIDENTIFIER (pseq (psym "=") pSTRING)

/-- `tag_list: tag_item ("," tag_item)*` -/
def pTagList (fuel : Nat) : P :=
  pseq pTagItem (pmany fuel (pseq (psym ",") pTagItem))

/-- `tag: "WITH"? "TAG" "(" tag_list ")"` (also `table_tag`, which has the
same right-hand side). -/
def pTagRule (fuel : Nat) : P :=
  pseq (popt (pkw "WITH")) (pseq (pkw "TAG") (pseq (psym "(") (pseq (pTagList fuel) (psym ")"))))

/-- `comment: "COMMENT" STRING` -/
def pCommentRule : P := pseq (pkw "COMMENT") pSTRING

/-- `schema_evolution: "ENABLE_SCHEMA_EVOLUTION" "=" BOOLEAN` -/
def pSchemaEvolution : P := pseq (pkw "ENABLE_SCHEMA_EVOLUTION") (pseq (psym "=") pBOOLEAN)

/-- `data_retention: "DATA_RETENTION_TIME_IN_DAYS" "=" NUMBER` -/
def pDataRetention : P := pseq (pkw "DATA_RETENTION_TIME_IN_DAYS") (pseq (psym "=") pNUMBER)

/-- `data_extension: "MAX_DATA_EXTENSION_TIME_IN_DAYS" "=" NUMBER` -/
def pDataExtension : P := pseq (pkw "MAX_DATA_EXTENSION_TIME_IN_DAYS") (pseq (psym "=") pNUMBER)

/-- `change_tracking: "CHANGE_TRACKING" "=" BOOLEAN` -/
def pChangeTracking : P := pseq (pkw "CHANGE_TRACKING") (pseq (psym "=") pBOOLEAN)

/-- `ddl_collation: "DEFAULT_DDL_COLLATION" "=" STRING` -/
def pDdlCollation : P := pseq (pkw "DEFAULT_DDL_COLLATION") (pseq (psym "=") pSTRING)

/-- `copy_grants: "COPY" "GRANTS"` -/
def pCopyGrants : P := pseq (pkw "COPY") (pkw "GRANTS")

/-- `table_comment: "COMMENT" "=" STRING` -/
def pTableComment : P := pseq (pkw "COMMENT") (pseq (psym "=") pSTRING)

/-- `contact_item: IDENTIFIER "=" IDENTIFIER` -/
def pContactItem : P := pseq pIDENTIFIER (pseq (psym "=") pIDENTIFIER)

/-- `contact_list: contact_item ("," contact_item)*` -/
def pContactList (fuel : Nat) : P :=
  pseq pContactItem (pmany fuel (pseq (psym ",") pContactItem))

/-- `contact: "WITH" "CONTACT" "(" contact_list ")"` -/
def pContact (fuel : Nat) : P :=
  pseq (pkw "WITH") (pseq (pkw "CONTACT") (pseq (psym "(") (pseq (pContactList fuel) (psym ")"))))

/-- `column_ref: IDENTIFIER ("." IDENTIFIER)*` -/
def pColumnRef (fuel : Nat) : P :=
  pseq pIDENTIFIER (pmany fuel (pseq (psym ".") pIDENTIFIER))

/-- `literal: NUMBER | STRING | BOOLEAN | "NULL"` -/
def pLiteral : P := palt pNUMBER (palt pSTRING (palt pBOOLEAN (pkw "NULL")))

/-- `operator: "+" | "-" | "*" | "/" | "%"` -/
def pOperator : P := fun ts =>
  match ts with
  | Tok.sym w :: rest =>
    if ["+", "-", "*", "/", "%"].any (fun o => w == o.toList) then [rest] else []
  | _ => []

/-- `comp_operator: "=" | "!=" | "<>" | "<" | "<=" | ">" | ">="` -/
def pCompOperator : P := fun ts =>
  match ts with
  | Tok.sym w :: rest =>
    if ["=", "!=", "<>", "<", "<=", ">", ">="].any (fun o => w == o.toList) then [rest] else []
  | _ => []

mutual

/-- `column_list: column_def ("," column_def)*` -/
def pColumnList : Nat → P
  | 0 => fun _ => []
  | fuel+1 => pseq (pColumnDef fuel) (pmany fuel (pseq (psym ",") (pColumnDef fuel)))

/-- `column_def: column_name data_type column_options*` with
`column_name: IDENTIFIER`. -/
def pColumnDef : Nat → P
  | 0 => fun _ => []
  | fuel+1 => pseq pIDENTIFIER (pseq (pDataType fuel) (pmany fuel (pColumnOptions fuel)))

/-- `column_options: inline_constraint | not_null | collate | default_value
| autoincrement | masking_policy | projection_policy | tag | comment` -/
def pColumnOptions : Nat → P
  | 0 => fun _ => []
  | fuel+1 =>
    palt (pInlineConstraint fuel) (palt pNotNull (palt pCollate
      (palt (pDefaultValue fuel) (palt pAutoincrement (palt (pMaskingPolicy fuel)
        (palt pProjectionPolicy (palt (pTagRule fuel) pCommentRule)))))))

/-- `inline_constraint: "CONSTRAINT" IDENTIFIER? constraint_type` -/
def pInlineConstraint : Nat → P
  | 0 => fun _ => []
  | fuel+1 => pseq (pkw "CONSTRAINT") (pseq (popt pIDENTIFIER) (pConstraintType fuel))

/-- `constraint: "CONSTRAINT" IDENTIFIER? constraint_type` -/
def pConstraint : Nat → P
  | 0 => fun _ => []
  | fuel+1 => pseq (pkw "CONSTRAINT") (pseq (popt pIDENTIFIER) (pConstraintType fuel))

/-- `constraint_type: "UNIQUE" | "PRIMARY" "KEY"
| "FOREIGN" "KEY" "REFERENCES" table_name "(" column_list ")"
| "CHECK" "(" expr ")"` -/
def pConstraintType : Nat → P
  | 0 => fun _ => []
  | fuel+1 =>
    palt (pkw "UNIQUE")
      (palt (pseq (pkw "PRIMARY") (pkw "KEY"))
        (palt (pseq (pkw "FOREIGN") (pseq (pkw "KEY") (pseq (pkw "REFERENCES")
            (pseq (pTableName fuel) (pseq (psym "(") (pseq (pColumnList fuel) (psym ")")))))))
          (pseq (pkw "CHECK") (pseq (psym "(") (pseq (pExpr fuel) (psym ")"))))))

/-- `out_of_line_constraints: "," constraint ("," constraint)*` -/
def pOutOfLine : Nat → P
  | 0 => fun _ => []
  | fuel+1 =>
    pseq (psym ",") (pseq (pConstraint fuel) (pmany fuel (pseq (psym ",") (pConstraint fuel))))

/-- `default_value: "DEFAULT" expr` -/
def pDefaultValue : Nat → P
  | 0 => fun _ => []
  | fuel+1 => pseq (pkw "DEFAULT") (pExpr fuel)

/-- `masking_policy: "WITH"? "MASKING" "POLICY" IDENTIFIER ("USING" "(" column_list ")")?` -/
def pMaskingPolicy : Nat → P
  | 0 => fun _ => []
  | fuel+1 =>
    pseq (popt (pkw "WITH")) (pseq (pkw "MASKING") (pseq (pkw "POLICY") (pseq pIDENTIFIER
      (popt (pseq (pkw "USING") (pseq (psym "(") (pseq (pColumnList fuel) (psym ")"))))))))

/-- `table_options: cluster_by | schema_evolution | data_retention
| data_extension | change_tracking | ddl_collation | copy_grants
| table_comment | row_access_policy | aggregation_policy | join_policy
| table_tag | contact` -/
def pTableOptions : Nat → P
  | 0 => fun _ => []
  | fuel+1 =>
    palt (pClusterBy fuel) (palt pSchemaEvolution (palt pDataRetention
      (palt pDataExtension (palt pChangeTracking (palt pDdlCollation
        (palt pCopyGrants (palt pTableComment (palt (pRowAccessPolicy fuel)
          (palt (pAggregationPolicy fuel) (palt (pJoinPolicy fuel)
            (palt (pTagRule fuel) (pContact fuel))))))))))))

/-- `cluster_by: "CLUSTER" "BY" "(" expr_list ")"` -/
def pClusterBy : Nat → P
  | 0 => fun _ => []
  | fuel+1 =>
    pseq (pkw "CLUSTER") (pseq (pkw "BY") (pseq (psym "(") (pseq (pExprList fuel) (psym ")"))))

/-- `row_access_policy: "WITH"? "ROW" "ACCESS" "POLICY" IDENTIFIER "ON" "(" column_list ")"` -/
def pRowAccessPolicy : Nat → P
  | 0 => fun _ => []
  | fuel+1 =>
    pseq (popt (pkw "WITH")) (pseq (pkw "ROW") (pseq (pkw "ACCESS") (pseq (pkw "POLICY")
      (pseq pIDENTIFIER (pseq (pkw "ON") (pseq (psym "(")
        (pseq (pColumnList fuel) (psym ")"))))))))

/-- `aggregation_policy: "WITH"? "AGGREGATION" "POLICY" IDENTIFIER ("ENTITY" "KEY" "(" column_list ")")?` -/
def pAggregationPolicy : Nat → P
  | 0 => fun _ => []
  | fuel+1 =>
    pseq (popt (pkw "WITH")) (pseq (pkw "AGGREGATION") (pseq (pkw "POLICY") (pseq pIDENTIFIER
      (popt (pseq (pkw "ENTITY") (pseq (pkw "KEY") (pseq (psym "(")
        (pseq (pColumnList fuel) (psym ")")))))))))

/-- `join_policy: "WITH"? "JOIN" "POLICY" IDENTIFIER ("ALLOWED" "JOIN" "KEYS" "(" column_list ")")?` -/
def pJoinPolicy : Nat → P
  | 0 => fun _ => []
  | fuel+1 =>
    pseq (popt (pkw "WITH")) (pseq (pkw "JOIN") (pseq (pkw "POLICY") (pseq pIDENTIFIER
      (popt (pseq (pkw "ALLOWED") (pseq (pkw "JOIN") (pseq (pkw "KEYS") (pseq (psym "(")
        (pseq (pColumnList fuel) (psym ")"))))))))))

/-- `expr_list: expr ("," expr)*` -/
def pExprList : Nat → P
  | 0 => fun _ => []
  | fuel+1 => pseq (pExpr fuel) (pmany fuel (pseq (psym ",") (pExpr fuel)))

/-- `expr: function_call | arithmetic_expr | comparison_expr | literal
| column_ref | "(" expr ")"`, with the left-recursive binary alternatives
folded into `base ((operator | comp_operator) expr)?` (same language). -/
def pExpr : Nat → P
  | 0 => fun _ => []
  | fuel+1 =>
    pseq (pExprBase fuel) (popt (pseq (palt pOperator pCompOperator) (pExpr fuel)))

/-- The non-left-recursive alternatives of `expr`. -/
def pExprBase : Nat → P
  | 0 => fun _ => []
  | fuel+1 =>
    palt (pFunctionCall fuel) (palt pLiteral (palt (pColumnRef fuel)
      (pseq (psym "(") (pseq (pExpr fuel) (psym ")")))))

/-- `function_call: IDENTIFIER "(" (expr ("," expr)*)? ")"` -/
def pFunctionCall : Nat → P
  | 0 => fun _ => []
  | fuel+1 =>
    pseq pIDENTIFIER (pseq (psym "(")
      (pseq (popt (pseq (pExpr fuel) (pmany fuel (pseq (psym ",") (pExpr fuel))))) (psym ")")))

end

/-- `column_clause: "(" column_list out_of_line_constraints? ")" table_options*` -/
def pColumnClause (fuel : Nat) : P :=
  pseq (psym "(") (pseq (pColumnList fuel) (pseq (popt (pOutOfLine fuel))
    (pseq (psym ")") (pmany fuel (pTableOptions fuel)))))

/-- `as_query: table_options* "AS" query` -/
def pAsQuery (fuel : Nat) : P :=
  pseq (pmany fuel (pTableOptions fuel)) (pseq (pkw "AS") pQuery)

/-- `create_table_stmt: "CREATE" or_replace? table_type? "TABLE"
if_not_exists? table_name (column_clause | as_query)` -/
def pCreateTableStmt (fuel : Nat) : P :=
  pseq (pkw "CREATE") (pseq (popt pOrReplace) (pseq (popt pTableType)
    (pseq (pkw "TABLE") (pseq (popt pIfNotExists) (pseq (pTableName fuel)
      (palt (pColumnClause fuel) (pAsQuery fuel)))))))

/-- Acceptance by the grammar (`?start: create_table_stmt` must consume
the whole statement): some derivation of `create_table_stmt` leaves no
remaining tokens.  The fuel comfortably dominates the depth of any
derivation of the given tokens. -/
def createTableAccepts (sql : Str) : Bool :=
  match tokenize sql with
  | none => false
  | some ts => (pCreateTableStmt (64 * (ts.length + 2)) ts).any List.isEmpty

/-- Result of `SnowflakeParser.validate_sql`: `accepted` models the
`True` return, `syntaxError` the propagated Lark parse exception, and
`unsupported` the `NotImplementedError` for statement kinds outside the
grammar. -/
inductive ValidateOutcome where
  | accepted
  | syntaxError
  | unsupported
deriving DecidableEq

/-- `SnowflakeParser.validate_sql`: strip the statement; if its
upper-casing starts with `CREATE TABLE`, parse it (the original,
unconverted text) with the grammar; otherwise raise
`NotImplementedError`. -/
def validate_sql (sql : Str) : ValidateOutcome :=
  let s := pyStrip sql
  if ("CREATE TABLE".toList).isPrefixOf (pyUpper s) then
    if createTableAccepts s then ValidateOutcome.accepted else ValidateOutcome.syntaxError
  else ValidateOutcome.unsupported

/-- The working string as it reaches the `MERGE` rewrite inside
`translate`: after upper-casing, type substitution, function
substitution, `WAREHOUSE`/`ACCOUNT` clause removal and the `TOP`
rewrite.  (This is the composition `translate` itself builds before
calling `_translate_merge_syntax`.) -/
def preMergeForm (query : Str) : Str :=
  subTop (subClause ("ACCOUNT".toList) (subClause ("WAREHOUSE".toList)
    (translateFunctions (translateDataTypes (pyUpper query)))))

/-! ## Helper lemmas -/

/-- `Char.ofNat` on a valid code point round-trips through `toNat`. -/
theorem toNat_ofNat_of_valid (n : Nat) (h : n.isValidChar) : (Char.ofNat n).toNat = n := by
  simp only [Char.ofNat, h, dif_pos]
  rfl

/-- `Char.toUpper` on an ASCII lower-case letter subtracts 32. -/
theorem toUpper_of_lower (c : Char) (h : 97 ≤ c.toNat ∧ c.toNat ≤ 122) :
    c.toUpper = Char.ofNat (c.toNat - 32) := by
  unfold Char.toUpper
  exact if_pos ⟨h.1, h.2⟩

/-- `Char.toUpper` fixes anything that is not an ASCII lower-case letter. -/
theorem toUpper_of_not_lower (c : Char) (h : ¬(97 ≤ c.toNat ∧ c.toNat ≤ 122)) :
    c.toUpper = c := by
  unfold Char.toUpper
  exact if_neg h

/-- `Char.toUpper` is idempotent. -/
theorem toUpper_idem (c : Char) : c.toUpper.toUpper = c.toUpper := by
  by_cases h : 97 ≤ c.toNat ∧ c.toNat ≤ 122
  · have hv : (c.toNat - 32).isValidChar := by
      left
      omega
    have ht := toNat_ofNat_of_valid _ hv
    rw [toUpper_of_lower c h, toUpper_of_not_lower]
    rw [ht]
    omega
  · rw [toUpper_of_not_lower c h, toUpper_of_not_lower c h]

/-- `pyUpper` is idempotent, so the pipeline's working copy is insensitive
to pre-upper-casing the input. -/
theorem pyUpper_idem (s : Str) : pyUpper (pyUpper s) = pyUpper s := by
  unfold pyUpper
  induction s with
  | nil => rfl
  | cons c rest ih =>
    simp only [List.map_cons, List.map_map] at *
    rw [ih]
    simp [toUpper_idem c]

/-! ## The claims -/

/-- C1, counterexample: the validator does not accept
`CREATE TABLE t (id NUMBER PRIMARY KEY, name VARCHAR(50))` — the inline
`PRIMARY KEY` without a leading `CONSTRAINT` keyword is outside the
declared grammar, whose `column_options` alternatives all begin with a
distinguishing keyword (`CONSTRAINT`, `NOT`, `COLLATE`, `DEFAULT`, …). -/
theorem C1_counterexample :
    validate_sql ("CREATE TABLE t (id NUMBER PRIMARY KEY, name VARCHAR(50))".toList)
      ≠ ValidateOutcome.accepted := by
  decide

/-- C1, amended: `validate_sql` on that exact statement reports a syntax
error (the Lark parse fails and the exception propagates); the variant
with the `CONSTRAINT` keyword before `PRIMARY KEY` is accepted. -/
theorem C1_amended :
    validate_sql ("CREATE TABLE t (id NUMBER PRIMARY KEY, name VARCHAR(50))".toList)
      = ValidateOutcome.syntaxError
    ∧ validate_sql ("CREATE TABLE t (id NUMBER CONSTRAINT PRIMARY KEY, name VARCHAR(50))".toList)
      = ValidateOutcome.accepted := by
  exact ⟨by decide, by decide⟩

/-- C2, counterexample: `translate` does not leave the four-part dotted
sequence `A.B.C.D` untouched. -/
theorem C2_counterexample :
    (translate ("A.B.C.D".toList)).1 ≠ "A.B.C.D".toList := by
  decide

/-- C2, amended: three-part dotted names are flattened
(`DB.SCHEMA.TABLE` → `SCHEMA.TABLE`) and two-part names are untouched,
but a four-part `A.B.C.D` has its leading three parts rewritten, giving
`B.C.D`. -/
theorem C2_amended :
    (translate ("DB.SCHEMA.TABLE".toList)).1 = "SCHEMA.TABLE".toList
    ∧ (translate ("SCHEMA.TABLE".toList)).1 = "SCHEMA.TABLE".toList
    ∧ translateIdentifiers ("A.B.C.D".toList) = "B.C.D".toList := by
  exact ⟨by decide, by decide, by decide⟩

/-- C3, counterexample: neither pass is idempotent on every string.  The
type pass maps `DOUBLE` to `DOUBLE PRECISION`, and a second application
rewrites the `DOUBLE` inside that output again; the function pass maps
`CURRENT_TIMESTAMP()()` to `CURRENT_TIMESTAMP()`, which a second
application rewrites once more. -/
theorem C3_counterexample :
    translateDataTypes (translateDataTypes ("DOUBLE".toList))
      ≠ translateDataTypes ("DOUBLE".toList)
    ∧ translateFunctions (translateFunctions ("CURRENT_TIMESTAMP()()".toList))
      ≠ translateFunctions ("CURRENT_TIMESTAMP()()".toList) := by
  exact ⟨by decide, by decide⟩

/-- C3, amended: on single-lexicon-key queries the passes are idempotent
except for the two type keys whose outputs re-enter the lexicon through
the `DOUBLE` entry: every type key other than `DOUBLE` and `FLOAT8`, and
every function key, reaches a fixed point after one application. -/
theorem C3_amended :
    (dataTypeMappings.all (fun kv =>
        kv.1 == "DOUBLE".toList || kv.1 == "FLOAT8".toList
        || translateDataTypes (translateDataTypes kv.1) == translateDataTypes kv.1)) = true
    ∧ (functionMappings.all (fun kv =>
        translateFunctions (translateFunctions kv.1) == translateFunctions kv.1)) = true := by
  exact ⟨by decide, by decide⟩

/-- C4, counterexample: the single-token query `FLOAT8` is not mapped to
its lexicon target `DOUBLE PRECISION`: the later `DOUBLE` entry of the
same pass rewrites the freshly produced target again. -/
theorem C4_counterexample :
    translateDataTypes ("FLOAT8".toList) ≠ "DOUBLE PRECISION".toList := by
  decide

/-- C4, amended: the type pass applies its entries sequentially, so text
produced by one entry can be rewritten by a later entry.  For every
source key except `FLOAT8` the single-token query still yields exactly
the mapped target (in particular `NUMBER` → `NUMERIC`, `TIMESTAMP_LTZ` →
`TIMESTAMP WITH TIME ZONE`, `VARIANT` → `JSONB`); `FLOAT8` instead
yields `DOUBLE PRECISION PRECISION` via the chained `DOUBLE` entry. -/
theorem C4_amended :
    (dataTypeMappings.all (fun kv =>
        kv.1 == "FLOAT8".toList || translateDataTypes kv.1 == kv.2)) = true
    ∧ translateDataTypes ("FLOAT8".toList) = "DOUBLE PRECISION PRECISION".toList := by
  exact ⟨by decide, by decide⟩

/-- C5, counterexample: `validate_sql` does not accept
`CREATE OR REPLACE TABLE T (ID NUMBER)`. -/
theorem C5_counterexample :
    validate_sql ("CREATE OR REPLACE TABLE T (ID NUMBER)".toList)
      ≠ ValidateOutcome.accepted := by
  decide

/-- C5, amended: although the declared grammar derives the statement
(`or_replace` is an optional part of `create_table_stmt`), `validate_sql`
never reaches the parser: its gate requires the trimmed statement to
start with the literal prefix `CREATE TABLE`, which `CREATE OR REPLACE
TABLE …` fails, so the statement is classified as an unsupported
statement kind. -/
theorem C5_amended :
    validate_sql ("CREATE OR REPLACE TABLE T (ID NUMBER)".toList)
      = ValidateOutcome.unsupported
    ∧ createTableAccepts ("CREATE OR REPLACE TABLE T (ID NUMBER)".toList) = true := by
  exact ⟨by decide, by decide⟩

/-- C6: every statement whose trimmed text does not start
(case-insensitively) with `CREATE TABLE` is reported as the distinct
unsupported-statement-kind error (`NotImplementedError`), never as a
syntax error; the grammar is not consulted. -/
theorem C6_unsupported_kind (s : Str)
    (h : ¬ ("CREATE TABLE".toList).isPrefixOf (pyUpper (pyStrip s)) = true) :
    validate_sql s = ValidateOutcome.unsupported := by
  unfold validate_sql
  dsimp only
  split
  · next hpre => exact absurd hpre h
  · rfl

/-- C6, witness: `SELECT * FROM t` fails the prefix gate and is reported
as unsupported. -/
theorem C6_unsupported_kind_witness :
    validate_sql ("SELECT * FROM t".toList) = ValidateOutcome.unsupported :=
  C6_unsupported_kind ("SELECT * FROM t".toList) (by decide)

/-- C7, counterexample: `WAREHOUSE MERGE` contains `MERGE` after case
normalisation, yet `translate` emits no warning and no `INSERT`: the
`WAREHOUSE <word>` clause removal deletes the `MERGE` before the merge
pass runs, leaving the empty string. -/
theorem C7_counterexample :
    containsSub (pyUpper ("WAREHOUSE MERGE".toList)) ("MERGE".toList) = true
    ∧ translate ("WAREHOUSE MERGE".toList) = ([], false) := by
  exact ⟨by decide, by decide⟩

/-- C7, amended: the warning is emitted exactly when `MERGE` still occurs
in the working string at the moment the merge pass runs (after type,
function, clause-removal and `TOP` rewriting); in particular the `MERGE`
rewrite is never applied silently, but an input whose only `MERGE` is
swallowed by the `WAREHOUSE`/`ACCOUNT` clause removal triggers neither
the warning nor the rewrite. -/
theorem C7_amended (q : Str) :
    (translate q).2 = containsSub (preMergeForm q) ("MERGE".toList) := by
  unfold translate translateSnowflakeSpecificSyntax translateMergeSyntax preMergeForm
  dsimp only
  split
  · next h => exact h.symm
  · next h =>
      simp only [Bool.not_eq_true] at h
      exact h.symm

/-- C8, counterexample: `translate "SELECT TOP 10 * FROM t"` does not
yield `SELECT LIMIT 10 * FROM t` — the lower-case `t` does not survive. -/
theorem C8_counterexample :
    (translate ("SELECT TOP 10 * FROM t".toList)).1
      ≠ "SELECT LIMIT 10 * FROM t".toList := by
  decide

/-- C8, amended: the `TOP` rewrite is textual and positional — `TOP 10`
becomes `LIMIT 10` in place, not relocated — but the output is the
upper-cased working copy (case restoration is a no-op), so the result is
`SELECT LIMIT 10 * FROM T`. -/
theorem C8_amended :
    (translate ("SELECT TOP 10 * FROM t".toList)).1
      = "SELECT LIMIT 10 * FROM T".toList := by
  decide

/-- C9: the translator's output depends only on the case-folded input:
translating `q.upper()` gives exactly the same result (text and warning
flag) as translating `q`, because the pipeline upper-cases its working
copy first and the case-restoration pass ignores the original. -/
theorem C9_case_insensitive (q : Str) : translate (pyUpper q) = translate q := by
  unfold translate restoreCase
  dsimp only
  rw [pyUpper_idem]

/-- C10, counterexample: not every occurrence of `MERGE` in the
upper-cased query is replaced by `INSERT` in the translated output: in
`ACCOUNT MERGE` the occurrence sits inside the removed `ACCOUNT <word>`
clause, so the output is empty and no warning fires. -/
theorem C10_counterexample :
    containsSub (pyUpper ("ACCOUNT MERGE".toList)) ("MERGE".toList) = true
    ∧ translate ("ACCOUNT MERGE".toList) = ([], false) := by
  exact ⟨by decide, by decide⟩

/-- C10, amended: the merge rewrite does trigger on substring containment
rather than keyword occurrence — an occurrence embedded in the longer
identifier `MERGED` is rewritten (giving `INSERTD`) and an occurrence
inside a single-quoted string literal is rewritten, each with the
warning flag set — provided the occurrence survives the earlier
clause-removal rewrites. -/
theorem C10_amended :
    translate ("MERGED".toList) = ("INSERTD".toList, true)
    ∧ translate ("SELECT ".toList ++ squote :: "MERGE".toList ++ squote :: " FROM T".toList)
      = ("SELECT ".toList ++ squote :: "INSERT".toList ++ squote :: " FROM T".toList, true) := by
  exact ⟨by decide, by decide⟩

end SnowflakeProxy
